import Mathlib

/-!
Shallow embedding of the DigitalTwinBackened frame-aggregation engine.

The repository derives real-time classroom signals from per-frame body
detections: occupancy / pairwise-proximity ("COVID") alerts, a behavioral
("phone usage") alert from keypoint geometry, per-session attendance
tracking with a Poor/Fair/Good classification, and a TTL-cached HVAC
advisory built from external sensor and weather fetches plus a model
inference.

Three files implement the per-frame evaluators with slight variations:
`app.py` (`process_frame` plus Flask endpoints), `all_dash.py` (`main`) and
`web.py` (`main`).  Machine floats are modelled as `ℚ`, Python exceptions
as `Except PyErr`, the external collaborators (sensor fetch, weather fetch,
trained model) as injected `Except`-valued arguments, and the mutable
global dictionaries as explicit state records threaded through functions.
-/

namespace DigitalTwin

/-- Python exception classes that the embedded code can raise. -/
inductive PyErr
  | typeError
  | indexError
  | zeroDivision
  | valueError
  | netError
  deriving Repr, DecidableEq

/-- One 2D keypoint as delivered by the sensing SDK, duck-typed:
it may be indexable (a pair/triple of coordinates, `coords`) and/or expose
a labeled `y` attribute (`yField`).  `coords = none` models a
non-indexable object, `yField = none` an object without a `y` attribute. -/
structure KP where
  coords : Option (List ℚ)
  yField : Option ℚ
  deriving Repr, DecidableEq

/-- Python `kp[i]`: raises `TypeError` on a non-indexable object and
`IndexError` past the end. -/
def pyIndex (k : KP) (i : ℕ) : Except PyErr ℚ :=
  match k.coords with
  | none => .error .typeError
  | some l =>
    match l.get? i with
    | some v => .ok v
    | none => .error .indexError

/-- Python `getattr(kp, 'y', kp[1])` as written in `app.py` line 169 and
`all_dash.py` line 247: the *default argument* `kp[1]` is evaluated eagerly
before `getattr` runs, so it raises even when the `y` attribute exists. -/
def getattrYIdx1 (k : KP) : Except PyErr ℚ :=
  match pyIndex k 1 with
  | .error e => .error e
  | .ok d => .ok (k.yField.getD d)

/-- One detected body (spec: Entity): device id when available (`hashVal`
stands for Python `hash(body)`, the structural fallback used when the id
attribute is missing), a 3D position and the 2D keypoint list. -/
structure Body where
  id : Option ℤ
  hashVal : ℤ
  position : ℚ × ℚ × ℚ
  keypoint_2d : List KP
  deriving Repr, DecidableEq

/-- `int(b.id) if hasattr(b, 'id') else hash(b)` (app.py line 182,
all_dash.py line 258). -/
def bodyId (b : Body) : ℤ := b.id.getD b.hashVal

/-- An alert, keeping the variable parts of the formatted message. -/
inductive Alert
  | occupancy (limit : ℤ)
  | proximity
  | phone (bid : Option ℤ)
  deriving Repr, DecidableEq

/-- Squared Euclidean distance between 3D positions.  The source compares
`np.linalg.norm(p - q) < 1.0`; for nonnegative bounds `m`,
`norm (p - q) < m ↔ distSq p q < m^2`, so all distance comparisons are
embedded on squares to stay inside `ℚ`. -/
def distSq (p q : ℚ × ℚ × ℚ) : ℚ :=
  (p.1 - q.1) ^ 2 + (p.2.1 - q.2.1) ^ 2 + (p.2.2 - q.2.2) ^ 2

/-- The pairwise-distance loop (`for i: for j in range(i+1, n)`), emitting
one `Proximity` alert per close pair in loop order (app.py lines 157-162,
all_dash.py lines 237-242, web.py lines 274-279).  `minDistSq` is the
square of the `1.0` metre literal, kept as a parameter. -/
def proximityAlerts (bodies : List Body) (minDistSq : ℚ) : List Alert :=
  match bodies with
  | [] => []
  | b :: rest =>
    (rest.filterMap fun c =>
      if distSq b.position c.position < minDistSq then some .proximity else none)
      ++ proximityAlerts rest minDistSq

/-- The COVID monitoring block: one `Occupancy` alert iff the body count
exceeds `covid_bodies`, followed by the pairwise proximity alerts
(app.py lines 153-162, all_dash.py lines 234-242, web.py lines 269-279). -/
def covidAlerts (bodies : List Body) (covid_bodies : ℤ) (minDistSq : ℚ) : List Alert :=
  (if (bodies.length : ℤ) > covid_bodies then [Alert.occupancy covid_bodies] else [])
    ++ proximityAlerts bodies minDistSq

/-- Number of `Occupancy` alerts in a list. -/
def countOcc (l : List Alert) : ℕ :=
  l.countP fun a => match a with | .occupancy _ => true | _ => false

/-- Number of `Proximity` alerts in a list. -/
def countProx (l : List Alert) : ℕ :=
  l.countP fun a => match a with | .proximity => true | _ => false

/-- The phone-usage condition on one body's keypoint list as written in
`all_dash.py` lines 246-249 / `app.py` lines 168-171: requires
`len(kp) > 1`, reads the y coordinates through `getattrYIdx1`, compares
`abs(nose_y - neck_y) < 40`.  Propagates any exception of the reads. -/
def phoneCondDash (kp : List KP) : Except PyErr Bool :=
  match kp with
  | k0 :: k1 :: _ =>
    match getattrYIdx1 k0 with
    | .error e => .error e
    | .ok ny =>
      match getattrYIdx1 k1 with
      | .error e => .error e
      | .ok ky => .ok (|ny - ky| < 40)
  | _ => .ok false

/-- Behavioral alerting in `all_dash.py` lines 244-250: only the first
body of the snapshot is inspected (`bodies.body_list[0]`); the `is_new`
flag marking fresh SDK data each grab is taken as true for a processed
snapshot. -/
def phoneAlertsDash (bodies : List Body) : Except PyErr (List Alert) :=
  match bodies with
  | [] => .ok []
  | b :: _ =>
    match phoneCondDash b.keypoint_2d with
    | .error e => .error e
    | .ok true => .ok [Alert.phone none]
    | .ok false => .ok []

/-- Behavioral alerting in `app.py` lines 165-172: iterates over *every*
body and appends one alert (naming the body id) per body meeting the
condition. -/
def phoneAlertsApp (bodies : List Body) : Except PyErr (List Alert) :=
  match bodies with
  | [] => .ok []
  | b :: rest =>
    match phoneCondDash b.keypoint_2d with
    | .error e => .error e
    | .ok cond =>
      match phoneAlertsApp rest with
      | .error e => .error e
      | .ok l => .ok ((if cond then [Alert.phone b.id] else []) ++ l)

/-- The y-coordinate reads of `web.py` lines 288-296: try indexing
(`kp[0][1]`, `kp[1][1]`), on any exception fall back to the `y`
attributes, on any exception there yield `None`/`None`. -/
def webGetYs (k0 k1 : KP) : Option (ℚ × ℚ) :=
  match pyIndex k0 1, pyIndex k1 1 with
  | .ok a, .ok b => some (a, b)
  | _, _ =>
    match k0.yField, k1.yField with
    | some a, some b => some (a, b)
    | _, _ => none

/-- Behavioral alerting in `web.py` lines 281-300: first body only, fully
guarded reads, no alert when the y values are unavailable.  Total: every
exception of the reads is caught in the source. -/
def phoneAlertsWeb (bodies : List Body) : List Alert :=
  match bodies with
  | [] => []
  | b :: _ =>
    match b.keypoint_2d with
    | k0 :: k1 :: _ =>
      match webGetYs k0 k1 with
      | some (ny, ky) => if |ny - ky| < 40 then [Alert.phone none] else []
      | none => []
    | _ => []

/-! ## Attendance tracking and the Flask control surface (`app.py`) -/

/-- Attendance classification labels. -/
inductive AttStatus
  | Poor
  | Fair
  | Good
  deriving Repr, DecidableEq

/-- The shared ratio → label rule (app.py lines 188-194, all_dash.py
line 261, web.py lines 316-322): `Poor` if `ratio < 1/3`, else `Fair` if
`ratio ≤ 2/3`, else `Good`. -/
def classifyRatio (r : ℚ) : AttStatus :=
  if r < 1 / 3 then .Poor else if r ≤ 2 / 3 then .Fair else .Good

/-- Ordering of the labels, `Poor < Fair < Good`. -/
def statusRank : AttStatus → ℕ
  | .Poor => 0
  | .Fair => 1
  | .Good => 2

/-- One entry of the tracked-bodies registry: first/last-seen timestamps. -/
structure TrackRec where
  first : ℚ
  last : ℚ
  deriving Repr, DecidableEq

/-- The per-body upsert of the tracking loops (app.py lines 181-185):
if the id is absent, append a fresh record at the end (Python dicts keep
insertion order); always set `last := now`. -/
def upsertTracked (t : List (ℤ × TrackRec)) (bid : ℤ) (now : ℚ) : List (ℤ × TrackRec) :=
  if t.any fun p => p.1 = bid then
    t.map fun p => if p.1 = bid then (p.1, { p.2 with last := now }) else p
  else t ++ [(bid, ⟨now, now⟩)]

/-- `for b in body_list: ...` over the whole snapshot. -/
def trackAll (t : List (ℤ × TrackRec)) (bodies : List Body) (now : ℚ) : List (ℤ × TrackRec) :=
  bodies.foldl (fun acc b => upsertTracked acc (bodyId b) now) t

/-- Running minimum where `none` models the initial `float('inf')`. -/
def minObs (m : Option ℕ) (n : ℕ) : Option ℕ :=
  match m with
  | none => some n
  | some k => some (min k n)

/-- Feature flags of `tracking_state["features"]`. -/
structure Features where
  covid : Bool
  phone : Bool
  attendance : Bool
  deriving Repr, DecidableEq

/-- The mutable global `tracking_state` of `app.py` (the camera/SDK
handles are out of scope).  `attendance = none` models the `"N/A"`
display value, otherwise the `(status, present, registered)` triple behind
the formatted string. -/
structure AppState where
  features : Features
  covid_bodies : ℤ
  registered_students : Option ℤ
  is_lecture_active : Bool
  lecture_start_time : Option ℚ
  att_max : ℕ
  att_min : Option ℕ
  tracked_bodies : List (ℤ × TrackRec)
  attendance : Option (AttStatus × ℕ × ℤ)
  deriving Repr, DecidableEq

/-- `tracking_state` as initialised at module load (app.py lines 30-56). -/
def initialAppState : AppState :=
  { features := ⟨false, false, false⟩
    covid_bodies := 12
    registered_students := none
    is_lecture_active := false
    lecture_start_time := none
    att_max := 0
    att_min := none
    tracked_bodies := []
    attendance := none }

/-- The attendance block of `process_frame` (app.py lines 174-198): when a
lecture is active and a registered count is set, widen `att_max`/`att_min`,
upsert every body's record, then classify from `present / registered` —
the *current* tick's body count.  A zero registered count raises
`ZeroDivisionError` after the registry updates, leaving the attendance
display unassigned. -/
def appAttendanceStep (s : AppState) (bodies : List Body) (now : ℚ) :
    AppState × Except PyErr Unit :=
  match s.is_lecture_active, s.registered_students with
  | true, some reg =>
    let present := bodies.length
    let s1 := { s with
      att_max := max s.att_max present
      att_min := minObs s.att_min present
      tracked_bodies := trackAll s.tracked_bodies bodies now }
    if reg = 0 then (s1, .error .zeroDivision)
    else
      (({ s1 with
          attendance := some (classifyRatio ((present : ℚ) / (reg : ℚ)), present, reg) }),
        .ok ())
  | _, _ => ({ s with attendance := none }, .ok ())

/-- The attendance variables of `all_dash.py` `main` (lines 220-224). -/
structure DashAtt where
  att_max : ℕ
  att_min : Option ℕ
  tracked : List (ℤ × TrackRec)
  deriving Repr, DecidableEq

/-- The attendance block of `all_dash.py` `main` (lines 252-262): same
registry updates, but the classification ratio is `att_max /
registered_students` — the running maximum, not the current count. -/
def dashAttendanceStep (a : DashAtt) (registered : ℤ) (bodies : List Body) (now : ℚ) :
    DashAtt × Except PyErr (AttStatus × ℕ × ℤ) :=
  let present := bodies.length
  let a1 : DashAtt :=
    { att_max := max a.att_max present
      att_min := minObs a.att_min present
      tracked := trackAll a.tracked bodies now }
  if registered = 0 then (a1, .error .zeroDivision)
  else
    (a1, .ok (classifyRatio ((a1.att_max : ℚ) / (registered : ℚ)), present, registered))

/-- Errors returned by the Flask endpoints (HTTP 400/500 payloads). -/
inductive ApiErr
  | noData
  | registeredRequired
  | exceedsCovidMax
  | exceedsCapacity
  | attendanceNotEnabled
  | lectureInProgress
  | noActiveLecture
  | phoneRequired
  deriving Repr, DecidableEq

/-- The JSON body of `/api/initialize` (camera parameters out of scope). -/
structure InitData where
  covid : Bool
  phone : Bool
  attendance : Bool
  registered_students : Option ℤ
  deriving Repr, DecidableEq

/-- `/api/initialize` (app.py lines 222-268): sets the feature flags
first, then validates `registered_students` when attendance is on — a
missing or zero (falsy) value is rejected as required; with COVID enabled
the count must not exceed `covid_bodies`, otherwise not exceed 30.  The
camera startup is out of scope.  Returns the state after the call together
with the outcome; validation failure leaves `registered_students` and the
lecture lifecycle untouched. -/
def apiInitialize (s : AppState) (d : InitData) : AppState × Except ApiErr Unit :=
  let s1 := { s with features := ⟨d.covid, d.phone, d.attendance⟩ }
  if d.attendance then
    match d.registered_students with
    | none => (s1, .error .registeredRequired)
    | some r =>
      if r = 0 then (s1, .error .registeredRequired)
      else if d.covid ∧ r > s1.covid_bodies then (s1, .error .exceedsCovidMax)
      else if ¬d.covid ∧ r > 30 then (s1, .error .exceedsCapacity)
      else ({ s1 with registered_students := some r }, .ok ())
  else (s1, .ok ())

/-- `/api/start_lecture` (app.py lines 295-308): Inactive → Active only;
resets the registry and the min/max counters. -/
def startLecture (s : AppState) (now : ℚ) : AppState × Except ApiErr Unit :=
  if ¬s.features.attendance then (s, .error .attendanceNotEnabled)
  else if s.is_lecture_active then (s, .error .lectureInProgress)
  else
    ({ s with
        is_lecture_active := true
        lecture_start_time := some now
        tracked_bodies := []
        att_max := 0
        att_min := none },
      .ok ())

/-- The durations report of `/api/stop_lecture` (app.py lines 317-332),
structured instead of line-formatted. -/
structure LectureReport where
  duration : ℚ
  att_max : ℕ
  att_min : Option ℕ
  registered : Option ℤ
  durations : List (ℤ × ℚ)
  deriving Repr, DecidableEq

/-- `/api/stop_lecture` (app.py lines 310-337): Active → Inactive only;
the report lists `last - first` per tracked body in registry (insertion)
order.  (`lecture_start_time` is always set while a lecture is active; the
`getD 0` default is unreachable on states produced by `startLecture`.) -/
def stopLecture (s : AppState) (now : ℚ) : AppState × Except ApiErr LectureReport :=
  if ¬s.is_lecture_active then (s, .error .noActiveLecture)
  else
    ({ s with is_lecture_active := false },
      .ok
        { duration := now - s.lecture_start_time.getD 0
          att_max := s.att_max
          att_min := s.att_min
          registered := s.registered_students
          durations := s.tracked_bodies.map fun p => (p.1, p.2.last - p.2.first) })

/-! ## `/api/update_features` (`app.py` lines 348-389) -/

/-- JSON values as relevant to the endpoint. -/
inductive JVal
  | null
  | jbool (b : Bool)
  | jint (n : ℤ)
  | jstr (s : String)
  deriving Repr, DecidableEq

/-- Python truthiness of a JSON value. -/
def JVal.truthy : JVal → Bool
  | .null => false
  | .jbool b => b
  | .jint n => n ≠ 0
  | .jstr s => s ≠ ""

/-- Python `int(v)`: `none` models the raised `ValueError`/`TypeError`. -/
def pyIntOf : JVal → Option ℤ
  | .jint n => some n
  | .jbool b => some (if b then 1 else 0)
  | .jstr s => s.toInt?
  | .null => none

/-- The request body: `none` marks an absent key. -/
structure UpdateData where
  phone : Option JVal
  phone_detection : Option JVal
  covid : Option JVal
  social_distancing : Option JVal
  attendance : Option JVal
  registered_students : Option JVal
  deriving Repr, DecidableEq

/-- `int(registered_students) if registered_students else 0`, with the
surrounding `try/except` coercing a failed conversion to `0`
(app.py lines 364-368). -/
def coerceRegistered (v : JVal) : ℤ :=
  if v.truthy then (pyIntOf v).getD 0 else 0

/-- `/api/update_features` (app.py lines 348-389): requires a
`phone_detection`/`phone` value (otherwise HTTP 400 before any state
change); updates only the features whose keys were sent; stores
`registered_students` as coerced, with *no* ceiling validation. -/
def updateFeatures (s : AppState) (d : UpdateData) : AppState × Except ApiErr Unit :=
  let pd := match d.phone_detection with
            | some v => some v
            | none => d.phone
  match pd with
  | none => (s, .error .phoneRequired)
  | some .null => (s, .error .phoneRequired)
  | some pv =>
    let sd := match d.social_distancing with
              | some v => v
              | none => d.covid.getD (.jbool false)
    let av := d.attendance.getD (.jbool false)
    let reg := coerceRegistered (d.registered_students.getD (.jint 0))
    let f0 := s.features
    let f1 := if d.phone.isSome ∨ d.phone_detection.isSome then
                { f0 with phone := pv.truthy } else f0
    let f2 := if d.covid.isSome ∨ d.social_distancing.isSome then
                { f1 with covid := sd.truthy } else f1
    let f3 := if d.attendance.isSome then { f2 with attendance := av.truthy } else f2
    let s1 := { s with features := f3 }
    let s2 := if d.registered_students.isSome then
                { s1 with registered_students := some reg } else s1
    (s2, .ok ())

/-! ## The HVAC advisory and its TTL caches (`predict_hvac.py`) -/

/-- The five Arduino Cloud sensor readings (`VARIABLES`, lowercased). -/
structure SensorData where
  temperature : ℚ
  humidity : ℚ
  sound_level : ℚ
  airquality : ℚ
  lightlevel : ℚ
  deriving Repr, DecidableEq

/-- `{var.lower(): 0 for var in VARIABLES}` — the no-cache fallback of
`get_cached_sensor_data`. -/
def defaultSensorData : SensorData := ⟨0, 0, 0, 0, 0⟩

/-- The weather fetch result: current temperature and local time. -/
structure WeatherData where
  temp : ℚ
  localtime : String
  deriving Repr, DecidableEq

/-- `{"temp": 25, "time": "N/A"}` — the no-cache fallback of
`get_cached_weather_data`. -/
def defaultWeatherData : WeatherData := ⟨25, "N/A"⟩

/-- A module-level cache cell (`_sensor_cache` / `_weather_cache`). -/
structure CacheCell (α : Type) where
  timestamp : ℚ
  data : Option α
  deriving Repr, DecidableEq

/-- `CACHE_DURATION = 60` seconds. -/
def CACHE_DURATION : ℚ := 60

/-- The shared shape of `get_cached_sensor_data` / `get_cached_weather_data`
(predict_hvac.py lines 55-99): within the TTL window and with a cached
value, return it unchanged; otherwise run the external fetch (injected as
an `Except` outcome); on success replace the cell wholesale; on failure
return the cached value if any, else `default`, leaving the cell
untouched. -/
def getCachedData {α : Type} (default : α) (now : ℚ) (fetch : Except PyErr α)
    (c : CacheCell α) : α × CacheCell α :=
  match c.data with
  | some d =>
    if now - c.timestamp < CACHE_DURATION then (d, c)
    else
      match fetch with
      | .ok v => (v, ⟨now, some v⟩)
      | .error _ => (d, c)
  | none =>
    match fetch with
    | .ok v => (v, ⟨now, some v⟩)
    | .error _ => (default, c)

/-- `get_cached_sensor_data` (predict_hvac.py lines 55-75).  The cached
dict always has its five keys, so Python truthiness of `_sensor_cache["data"]`
coincides with it being non-`None`. -/
def getCachedSensorData (now : ℚ) (fetch : Except PyErr SensorData)
    (c : CacheCell SensorData) : SensorData × CacheCell SensorData :=
  getCachedData defaultSensorData now fetch c

/-- `get_cached_weather_data` (predict_hvac.py lines 77-99). -/
def getCachedWeatherData (now : ℚ) (fetch : Except PyErr WeatherData)
    (c : CacheCell WeatherData) : WeatherData × CacheCell WeatherData :=
  getCachedData defaultWeatherData now fetch c

/-- The feature row handed to the trained model (predict_hvac.py
lines 143-151), in source order. -/
structure ModelInput where
  temperature : ℚ
  humidity : ℚ
  sound_level : ℚ
  lightlevel : ℚ
  airquality : ℚ
  external_temp : ℚ
  occupancy : ℤ
  deriving Repr, DecidableEq

/-- Python 3 `round` at the integer step: round half to even. -/
def roundHalfEven (q : ℚ) : ℤ :=
  let f := ⌊q⌋
  let r := q - (f : ℚ)
  if r < 1 / 2 then f
  else if 1 / 2 < r then f + 1
  else if f % 2 = 0 then f else f + 1

/-- `round(x, 1)` as exact rational rounding to one decimal. -/
def pyRound1 (q : ℚ) : ℚ := (roundHalfEven (q * 10) : ℚ) / 10

/-- `_compute_adjusted_diff` (predict_hvac.py lines 124-131):
`round(current_temp - 25.0 + occupancy * 0.3, 1)`. -/
def computeAdjustedDiff (current_temp : ℚ) (occupancy : ℤ) : ℚ :=
  pyRound1 (current_temp - 25 + (occupancy : ℚ) * (3 / 10))

/-- The suggestion text chain of `predict_hvac_action` (lines 161-172).
Rationals print as fractions rather than decimals; the branch structure is
the source's. -/
def buildSuggestion (action : String) (adj : ℚ) (occupancy : ℤ) : String :=
  if action = "COOL" ∧ adj > 0 then
    "❄️ COOL by " ++ toString |adj| ++ "°C to reach 25°C (incl. " ++
      toString occupancy ++ " ppl)."
  else if action = "HEAT" ∧ adj < 0 then
    "🔥 HEAT by " ++ toString |adj| ++ "°C to reach 25°C (incl. " ++
      toString occupancy ++ " ppl)."
  else if action = "MAINTAIN" then "✅ Maintain – temperature is optimal."
  else if action = "FAN" then "🌀 Run fan – circulate air."
  else if action = "IDLE" then "💤 Idle – no one's here."
  else "ℹ️ Monitor – no immediate action."

/-- The dict returned by `predict_hvac_action`; `sensor_data = none`
models the empty dict `{}` of the fallback branch. -/
structure HvacResult where
  action : String
  suggestion : String
  sensor_data : Option SensorData
  external_temp : ℚ
  local_time : String
  deriving Repr, DecidableEq

/-- The fallback advisory of the `except` branch (predict_hvac.py
lines 181-189). -/
def hvacFallback : HvacResult :=
  { action := "ERROR"
    suggestion := "Error in HVAC prediction"
    sensor_data := none
    external_temp := 25
    local_time := "N/A" }

/-- The `try` block of `predict_hvac_action` (lines 137-180): run both
cached fetches (which mutate the module caches before any model call),
then the injected model + label-encoder inference; its exception, if any,
escapes the block. -/
def predictHvacTry (occupancy : ℤ) (now : ℚ)
    (sensorFetch : Except PyErr SensorData) (weatherFetch : Except PyErr WeatherData)
    (modelPredict : ModelInput → Except PyErr String)
    (sc : CacheCell SensorData) (wc : CacheCell WeatherData) :
    Except PyErr HvacResult × CacheCell SensorData × CacheCell WeatherData :=
  let p := getCachedSensorData now sensorFetch sc
  let q := getCachedWeatherData now weatherFetch wc
  let sd := p.1
  let wd := q.1
  match modelPredict ⟨sd.temperature, sd.humidity, sd.sound_level, sd.lightlevel,
      sd.airquality, wd.temp, occupancy⟩ with
  | .error e => (.error e, p.2, q.2)
  | .ok action =>
    (.ok
        { action := action
          suggestion := buildSuggestion action (computeAdjustedDiff sd.temperature occupancy)
            occupancy
          sensor_data := some sd
          external_temp := wd.temp
          local_time := wd.localtime },
      p.2, q.2)

/-- `predict_hvac_action` (predict_hvac.py lines 133-189): the `try`
block with its catch-all `except` returning the fallback advisory — the
function itself never raises. -/
def predictHvacAction (occupancy : ℤ) (now : ℚ)
    (sensorFetch : Except PyErr SensorData) (weatherFetch : Except PyErr WeatherData)
    (modelPredict : ModelInput → Except PyErr String)
    (sc : CacheCell SensorData) (wc : CacheCell WeatherData) :
    HvacResult × CacheCell SensorData × CacheCell WeatherData :=
  match predictHvacTry occupancy now sensorFetch weatherFetch modelPredict sc wc with
  | (.ok r, sc', wc') => (r, sc', wc')
  | (.error _, sc', wc') => (hvacFallback, sc', wc')

/-- Modelled from the spec: the Advisory `action_label` enum of §3 — the
source works with plain strings (`COOL`, `HEAT`, `MAINTAIN`, `FAN`,
`IDLE`, plus the fallback `"ERROR"`), and the spec abstracts every label
outside the five known actions to `UNKNOWN`, matching the catch-all
"Monitor" suggestion branch. -/
inductive ActionLabel
  | COOL
  | HEAT
  | MAINTAIN
  | FAN
  | IDLE
  | UNKNOWN
  deriving Repr, DecidableEq

/-- The abstraction from code-level action strings to the spec enum. -/
def actionLabelOf (a : String) : ActionLabel :=
  if a = "COOL" then .COOL
  else if a = "HEAT" then .HEAT
  else if a = "MAINTAIN" then .MAINTAIN
  else if a = "FAN" then .FAN
  else if a = "IDLE" then .IDLE
  else .UNKNOWN

/-! ## Helper lemmas -/

/-- Every alert of the pairwise loop is a `Proximity` alert. -/
theorem mem_proximityAlerts {bodies : List Body} {m : ℚ} :
    ∀ a ∈ proximityAlerts bodies m, a = Alert.proximity := by
  induction bodies with
  | nil => intro a ha; simp [proximityAlerts] at ha
  | cons b rest ih =>
    intro a ha
    rw [proximityAlerts] at ha
    rcases List.mem_append.mp ha with h | h
    · rcases List.mem_filterMap.mp h with ⟨c, _, hc⟩
      by_cases hd : distSq b.position c.position < m
      · rw [if_pos hd] at hc
        exact (Option.some.inj hc).symm
      · rw [if_neg hd] at hc
        cases hc
    · exact ih a h

/-- The pairwise loop contributes no `Occupancy` alerts. -/
theorem countOcc_proximityAlerts (bodies : List Body) (m : ℚ) :
    countOcc (proximityAlerts bodies m) = 0 := by
  rw [countOcc, List.countP_eq_zero]
  intro a ha
  rw [mem_proximityAlerts a ha]
  simp

/-- Unfolding `countProx` over the first body: one alert per later body
closer than the bound. -/
theorem countProx_proximityAlerts_cons (b : Body) (rest : List Body) (m : ℚ) :
    countProx (proximityAlerts (b :: rest) m) =
      rest.countP (fun c => distSq b.position c.position < m) +
        countProx (proximityAlerts rest m) := by
  rw [proximityAlerts, countProx, List.countP_append, List.countP_filterMap]
  rw [countProx]
  congr 1
  apply List.countP_congr
  intro c _
  by_cases hd : distSq b.position c.position < m <;> simp [hd]

/-! ## C4: occupancy alert iff the body count exceeds the limit -/

/-- C4: for every snapshot and occupancy limit, the COVID block emits
exactly one `Occupancy` alert iff `len(entities) > occupancy_limit`; the
count is invariant under permutation of the entities, and a snapshot with
`len(entities) = occupancy_limit + 1` always yields exactly one. -/
theorem occupancy_threshold_alert :
    (∀ (bodies : List Body) (limit : ℤ) (mSq : ℚ),
        countOcc (covidAlerts bodies limit mSq) =
          if (bodies.length : ℤ) > limit then 1 else 0) ∧
    (∀ (bodies bodies' : List Body) (limit : ℤ) (mSq : ℚ), bodies.Perm bodies' →
        countOcc (covidAlerts bodies limit mSq) =
          countOcc (covidAlerts bodies' limit mSq)) ∧
    (∀ (bodies : List Body) (limit : ℤ) (mSq : ℚ), (bodies.length : ℤ) = limit + 1 →
        countOcc (covidAlerts bodies limit mSq) = 1) := by
  have key : ∀ (bodies : List Body) (limit : ℤ) (mSq : ℚ),
      countOcc (covidAlerts bodies limit mSq) =
        if (bodies.length : ℤ) > limit then 1 else 0 := by
    intro bodies limit mSq
    rw [covidAlerts, countOcc, List.countP_append]
    have h0 := countOcc_proximityAlerts bodies mSq
    rw [countOcc] at h0
    rw [h0, Nat.add_zero]
    by_cases h : (bodies.length : ℤ) > limit <;> simp [h, countOcc]
  refine ⟨key, ?_, ?_⟩
  · intro bodies bodies' limit mSq hperm
    rw [key, key, hperm.length_eq]
  · intro bodies limit mSq hlen
    rw [key, if_pos (by omega)]

/-- Concrete instance for `occupancy_threshold_alert`: two bodies against
limit 1, in both orders. -/
def bW1 : Body := ⟨some 1, 1, (0, 0, 0), []⟩

/-- Second witness body, far from `bW1`. -/
def bW2 : Body := ⟨some 2, 2, (5, 0, 0), []⟩

/-- Witness for C4 at a concrete snapshot. -/
theorem occupancy_threshold_alert_witness :
    countOcc (covidAlerts [bW1, bW2] 1 1) = countOcc (covidAlerts [bW2, bW1] 1 1) ∧
    countOcc (covidAlerts [bW1, bW2] 1 1) = 1 :=
  ⟨occupancy_threshold_alert.2.1 [bW1, bW2] [bW2, bW1] 1 1 (List.Perm.swap bW2 bW1 []),
    occupancy_threshold_alert.2.2 [bW1, bW2] 1 1 (by decide)⟩

/-! ## C5: one proximity alert per close unordered pair -/

/-- C5: the pairwise loop emits exactly one `Proximity` alert per
unordered pair of bodies at squared distance below the bound (counted
against Mathlib's independent enumeration of 2-element sublists), and a
snapshot within the occupancy limit whose pairs are all at least the
minimum distance apart yields no alert at all. -/
theorem proximity_pairwise_alerts :
    (∀ (bodies : List Body) (mSq : ℚ),
        countProx (proximityAlerts bodies mSq) =
          (bodies.sublistsLen 2).countP fun l =>
            match l with
            | [a, b] => decide (distSq a.position b.position < mSq)
            | _ => false) ∧
    (∀ (bodies : List Body) (limit : ℤ) (mSq : ℚ),
        (bodies.length : ℤ) ≤ limit →
        bodies.Pairwise (fun a b => ¬distSq a.position b.position < mSq) →
        covidAlerts bodies limit mSq = []) := by
  constructor
  · intro bodies mSq
    induction bodies with
    | nil => rfl
    | cons b rest ih =>
      rw [countProx_proximityAlerts_cons, ih, List.sublistsLen_succ_cons,
        List.countP_append, List.countP_map, List.sublistsLen_one, List.countP_map,
        List.countP_reverse, Nat.add_comm]
      rfl
  · intro bodies limit mSq hlen hfar
    rw [covidAlerts, if_neg (by omega), List.nil_append]
    induction bodies with
    | nil => rfl
    | cons b rest ih =>
      rw [List.pairwise_cons] at hfar
      rw [proximityAlerts, ih (by exact_mod_cast le_trans (by simp) hlen) hfar.2,
        List.append_nil, List.filterMap_eq_nil_iff]
      intro c hc
      rw [if_neg (hfar.1 c hc)]

/-- Witness for C5: two far-apart bodies under the limit produce no
alerts, and the pair count matches the sublist count. -/
theorem proximity_pairwise_alerts_witness :
    covidAlerts [bW1, bW2] 2 1 = [] ∧
    countProx (proximityAlerts [bW1, bW2] 1) =
      (([bW1, bW2] : List Body).sublistsLen 2).countP fun l =>
        match l with
        | [a, b] => decide (distSq a.position b.position < 1)
        | _ => false :=
  ⟨proximity_pairwise_alerts.2 [bW1, bW2] 2 1 (by decide)
      (by norm_num [List.pairwise_cons, distSq, bW1, bW2]),
    proximity_pairwise_alerts.1 [bW1, bW2] 1⟩

/-! ## C1: attendance classification ratio -/

/-- Classification is monotone in the ratio. -/
theorem classifyRatio_mono {r1 r2 : ℚ} (h : r1 ≤ r2) :
    statusRank (classifyRatio r1) ≤ statusRank (classifyRatio r2) := by
  unfold classifyRatio
  split_ifs <;> simp [statusRank] <;> linarith

/-- A lecture state mid-session: three attendees were once observed
(`att_max = 3`) out of 3 registered, but the current snapshot is empty. -/
def c1State : AppState :=
  { initialAppState with
    features := ⟨false, false, true⟩
    registered_students := some 3
    is_lecture_active := true
    lecture_start_time := some 0
    att_max := 3
    att_min := some 2 }

/-- Counterexample to C1 as stated: `app.py`'s `process_frame` classifies
from the *current* tick's body count, not from `max_observed`.  With
`max_observed = 3` and `registered_count = 3` the claim predicts `Good`
(ratio `3/3`), but an empty snapshot yields `Poor`. -/
theorem attendance_classification_counterexample :
    (appAttendanceStep c1State [] 5).1.attendance = some (.Poor, 0, 3) ∧
    (appAttendanceStep c1State [] 5).1.att_max = 3 ∧
    classifyRatio ((3 : ℚ) / 3) = .Good := by
  refine ⟨?_, ?_, ?_⟩
  · norm_num [appAttendanceStep, c1State, initialAppState, classifyRatio, trackAll, minObs]
  · norm_num [appAttendanceStep, c1State, initialAppState, trackAll, minObs]
  · norm_num [classifyRatio]

/-- C1 amended: `all_dash.py`'s `main` classifies from the updated
`max_observed / registered_count` and that classification is monotone in
`max_observed` for a fixed positive `registered_count`; `app.py`'s
`process_frame`, however, classifies from the current tick's entity
count over `registered_count`. -/
theorem attendance_classification_amended :
    (∀ (a : DashAtt) (reg : ℤ) (bodies : List Body) (now : ℚ), reg ≠ 0 →
        (dashAttendanceStep a reg bodies now).2 =
          .ok (classifyRatio (((max a.att_max bodies.length : ℕ) : ℚ) / (reg : ℚ)),
            bodies.length, reg)) ∧
    (∀ (m m' : ℕ) (reg : ℤ), 0 < reg → m ≤ m' →
        statusRank (classifyRatio ((m : ℚ) / (reg : ℚ))) ≤
          statusRank (classifyRatio ((m' : ℚ) / (reg : ℚ)))) ∧
    (∀ (s : AppState) (reg : ℤ) (bodies : List Body) (now : ℚ),
        s.is_lecture_active = true → s.registered_students = some reg → reg ≠ 0 →
        (appAttendanceStep s bodies now).1.attendance =
          some (classifyRatio ((bodies.length : ℚ) / (reg : ℚ)), bodies.length, reg)) := by
  refine ⟨?_, ?_, ?_⟩
  · intro a reg bodies now h
    simp only [dashAttendanceStep]
    rw [if_neg h]
  · intro m m' reg hreg hmm
    apply classifyRatio_mono
    have hr : (0 : ℚ) < (reg : ℚ) := by exact_mod_cast hreg
    have hm : (m : ℚ) ≤ (m' : ℚ) := by exact_mod_cast hmm
    gcongr
  · intro s reg bodies now h1 h2 h3
    simp only [appAttendanceStep, h1, h2]
    rw [if_neg h3]

/-- Witness for the amended C1 at concrete inputs. -/
theorem attendance_classification_amended_witness :
    (dashAttendanceStep ⟨3, some 2, []⟩ 3 [] 5).2 = .ok (.Good, 0, 3) := by
  have h := attendance_classification_amended.1 ⟨3, some 2, []⟩ 3 [] 5 (by decide)
  rw [h]
  norm_num [classifyRatio]

/-! ## C2: which entities behavioral alerting inspects -/

/-- A nose keypoint at y = 0. -/
def kpNose : KP := ⟨some [0, 0], none⟩

/-- A neck keypoint at y = 10 (within the 40px threshold). -/
def kpNeckNear : KP := ⟨some [0, 10], none⟩

/-- A neck keypoint at y = 100 (outside the threshold). -/
def kpNeckFar : KP := ⟨some [0, 100], none⟩

/-- A body whose keypoints do not meet the phone condition. -/
def bodyCalm : Body := ⟨some 1, 1, (0, 0, 0), [kpNose, kpNeckFar]⟩

/-- A body whose keypoints do meet the phone condition. -/
def bodyPhone : Body := ⟨some 2, 2, (0, 0, 0), [kpNose, kpNeckNear]⟩

/-- Counterexample to C2 as stated: with a first entity failing the
condition and a second entity meeting it, the claim says no Behavioral
alert; `all_dash.py` indeed emits none, but `app.py`'s `process_frame`
inspects every body and emits an alert for the second one. -/
theorem behavioral_first_entity_counterexample :
    phoneAlertsDash [bodyCalm, bodyPhone] = .ok [] ∧
    phoneAlertsApp [bodyCalm, bodyPhone] = .ok [Alert.phone (some 2)] := by
  have h100 : ¬|(0 : ℚ) - 100| < 40 := by
    rw [abs_sub_comm, abs_of_nonneg (by norm_num : (0 : ℚ) ≤ 100 - 0)]
    norm_num
  have h10 : |(0 : ℚ) - 10| < 40 := by
    rw [abs_sub_comm, abs_of_nonneg (by norm_num : (0 : ℚ) ≤ 10 - 0)]
    norm_num
  constructor <;>
    · simp [phoneAlertsDash, phoneAlertsApp, phoneCondDash, getattrYIdx1, pyIndex,
        bodyCalm, bodyPhone, kpNose, kpNeckNear, kpNeckFar, h100, h10]
      norm_num

/-- C2 amended: in `all_dash.py` the behavioral evaluator inspects only
the first entity — the tail of the snapshot is irrelevant, and the alert
is emitted exactly when the first entity's two keypoint y-reads succeed
with `|y0 - y1| < 40` (no alert on short keypoint data); in `app.py`
every entity is inspected and contributes its own alert. -/
theorem behavioral_first_entity_amended :
    (∀ (b : Body) (rest rest' : List Body),
        phoneAlertsDash (b :: rest) = phoneAlertsDash (b :: rest')) ∧
    (∀ (b : Body) (rest : List Body) (k0 k1 : KP) (ks : List KP) (ny ky : ℚ),
        b.keypoint_2d = k0 :: k1 :: ks →
        getattrYIdx1 k0 = .ok ny → getattrYIdx1 k1 = .ok ky →
        phoneAlertsDash (b :: rest) =
          .ok (if |ny - ky| < 40 then [Alert.phone none] else [])) ∧
    (∀ (b : Body) (rest : List Body), b.keypoint_2d.length ≤ 1 →
        phoneAlertsDash (b :: rest) = .ok []) ∧
    (∀ (b : Body) (rest : List Body) (c : Bool),
        phoneCondDash b.keypoint_2d = .ok c →
        phoneAlertsApp (b :: rest) =
          (phoneAlertsApp rest).map fun l => (if c then [Alert.phone b.id] else []) ++ l) := by
  refine ⟨?_, ?_, ?_, ?_⟩
  · intro b rest rest'
    rfl
  · intro b rest k0 k1 ks ny ky hkp h0 h1
    by_cases hc : |ny - ky| < 40 <;>
      simp [phoneAlertsDash, phoneCondDash, hkp, h0, h1, hc]
  · intro b rest h
    rcases hkp : b.keypoint_2d with _ | ⟨k0, _ | ⟨k1, ks⟩⟩
    · simp [phoneAlertsDash, phoneCondDash, hkp]
    · simp [phoneAlertsDash, phoneCondDash, hkp]
    · rw [hkp] at h
      simp at h
  · intro b rest c h
    rcases happ : phoneAlertsApp rest with e | l <;>
      simp [phoneAlertsApp, h, happ, Except.map]

/-- Witness for the amended C2: the first entity alone triggers the
alert. -/
theorem behavioral_first_entity_amended_witness :
    phoneAlertsDash [bodyPhone] = .ok [Alert.phone none] := by
  have h10 : |(0 : ℚ) - 10| < 40 := by
    rw [abs_sub_comm, abs_of_nonneg (by norm_num : (0 : ℚ) ≤ 10 - 0)]
    norm_num
  have h := behavioral_first_entity_amended.2.1 bodyPhone [] kpNose kpNeckNear []
    0 10 rfl rfl rfl
  rw [h, if_pos h10]

/-! ## C9: behavioral alerting tolerance of keypoint shapes -/

/-- A labeled-field keypoint: exposes `y` but is not indexable. -/
def kpLabel (y : ℚ) : KP := ⟨none, some y⟩

/-- A body whose keypoints are labeled-field records only. -/
def bodyLabeled : Body := ⟨some 3, 3, (0, 0, 0), [kpLabel 0, kpLabel 10]⟩

/-- Counterexample to C9 as stated: on a labeled-field keypoint record
without indexing, `getattr(kp[0], 'y', kp[0][1])` evaluates its default
argument first, so `all_dash.py` and `app.py` raise `TypeError` instead
of using the `y` field; only `web.py` tolerates this shape. -/
theorem behavioral_tolerance_counterexample :
    phoneAlertsDash [bodyLabeled] = .error .typeError ∧
    phoneAlertsApp [bodyLabeled] = .error .typeError ∧
    phoneAlertsWeb [bodyLabeled] = [Alert.phone none] := by
  have h10 : |(0 : ℚ) - 10| < 40 := by
    rw [abs_sub_comm, abs_of_nonneg (by norm_num : (0 : ℚ) ≤ 10 - 0)]
    norm_num
  refine ⟨rfl, rfl, ?_⟩
  simp [phoneAlertsWeb, webGetYs, pyIndex, bodyLabeled, kpLabel, h10]
  norm_num

/-- C9 amended: `web.py`'s evaluator tolerates both indexable and
labeled-field keypoints and emits no alert on missing/short keypoint
data; `all_dash.py`/`app.py` tolerate indexable keypoints (with or
without a `y` attribute) and short data, but fail on labeled-field
records that are not indexable. -/
theorem behavioral_tolerance_amended :
    (∀ (b : Body) (rest : List Body) (k0 k1 : KP) (ks : List KP) (y0 y1 : ℚ),
        b.keypoint_2d = k0 :: k1 :: ks →
        pyIndex k0 1 = .ok y0 → pyIndex k1 1 = .ok y1 →
        phoneAlertsWeb (b :: rest) =
          (if |y0 - y1| < 40 then [Alert.phone none] else [])) ∧
    (∀ (b : Body) (rest : List Body) (k0 k1 : KP) (ks : List KP) (e : PyErr) (y0 y1 : ℚ),
        b.keypoint_2d = k0 :: k1 :: ks →
        pyIndex k0 1 = .error e →
        k0.yField = some y0 → k1.yField = some y1 →
        phoneAlertsWeb (b :: rest) =
          (if |y0 - y1| < 40 then [Alert.phone none] else [])) ∧
    (∀ (b : Body) (rest : List Body), b.keypoint_2d.length ≤ 1 →
        phoneAlertsWeb (b :: rest) = [] ∧ phoneAlertsDash (b :: rest) = .ok []) ∧
    (∀ (b : Body) (rest : List Body) (k0 k1 : KP) (ks : List KP) (y0 y1 : ℚ),
        b.keypoint_2d = k0 :: k1 :: ks →
        pyIndex k0 1 = .ok y0 → pyIndex k1 1 = .ok y1 →
        phoneAlertsDash (b :: rest) =
          .ok (if |k0.yField.getD y0 - k1.yField.getD y1| < 40
            then [Alert.phone none] else [])) := by
  refine ⟨?_, ?_, ?_, ?_⟩
  · intro b rest k0 k1 ks y0 y1 hkp h0 h1
    simp [phoneAlertsWeb, webGetYs, hkp, h0, h1]
  · intro b rest k0 k1 ks e y0 y1 hkp h0 hy0 hy1
    simp [phoneAlertsWeb, webGetYs, hkp, h0, hy0, hy1]
  · intro b rest h
    rcases hkp : b.keypoint_2d with _ | ⟨k0, _ | ⟨k1, ks⟩⟩
    · exact ⟨by simp [phoneAlertsWeb, hkp], by simp [phoneAlertsDash, phoneCondDash, hkp]⟩
    · exact ⟨by simp [phoneAlertsWeb, hkp], by simp [phoneAlertsDash, phoneCondDash, hkp]⟩
    · rw [hkp] at h
      simp at h
  · intro b rest k0 k1 ks y0 y1 hkp h0 h1
    by_cases hc : |k0.yField.getD y0 - k1.yField.getD y1| < 40 <;>
      simp [phoneAlertsDash, phoneCondDash, getattrYIdx1, hkp, h0, h1, hc]

/-- Witness for the amended C9: `web.py` handles the labeled-only shape. -/
theorem behavioral_tolerance_amended_witness :
    phoneAlertsWeb [bodyLabeled] = [Alert.phone none] := by
  have h10 : |(0 : ℚ) - 10| < 40 := by
    rw [abs_sub_comm, abs_of_nonneg (by norm_num : (0 : ℚ) ≤ 10 - 0)]
    norm_num
  have h := behavioral_tolerance_amended.2.1 bodyLabeled [] (kpLabel 0) (kpLabel 10) []
    .typeError 0 10 rfl rfl rfl rfl
  rw [h, if_pos h10]

/-! ## C6: the stop-session durations report -/

/-- A minimal body carrying only a device id, as the attendance registry
sees it. -/
def mkAttBody (i : ℤ) : Body := ⟨some i, i, (0, 0, 0), []⟩

/-- The round-trip scenario: start with 10 registered, observe ids
`{1,2}`, `{1,2,3}`, `{2,3}` at `t`, `t+1`, `t+2`, then stop. -/
def c6Run (t : ℚ) : Except ApiErr LectureReport :=
  let s0 := { initialAppState with
    features := ⟨false, false, true⟩
    registered_students := some 10 }
  let s1 := (startLecture s0 t).1
  let s2 := (appAttendanceStep s1 [mkAttBody 1, mkAttBody 2] t).1
  let s3 := (appAttendanceStep s2 [mkAttBody 1, mkAttBody 2, mkAttBody 3] (t + 1)).1
  let s4 := (appAttendanceStep s3 [mkAttBody 2, mkAttBody 3] (t + 2)).1
  (stopLecture s4 (t + 2)).2

/-- C6: stopping an active session reports, in registry (insertion)
order, `last_seen - first_seen` per record together with
`max_observed`, `min_observed` and `registered_count`, and the three-tick
round-trip scenario yields `max = 3`, `min = 2` and durations
`1 ↦ 1, 2 ↦ 2, 3 ↦ 1`. -/
theorem stop_report_durations :
    (∀ (s : AppState) (now : ℚ), s.is_lecture_active = true →
        (stopLecture s now).2 =
          .ok { duration := now - s.lecture_start_time.getD 0
                att_max := s.att_max
                att_min := s.att_min
                registered := s.registered_students
                durations := s.tracked_bodies.map fun p => (p.1, p.2.last - p.2.first) } ∧
        (stopLecture s now).1.is_lecture_active = false) ∧
    (∀ t : ℚ, c6Run t =
        .ok { duration := 2
              att_max := 3
              att_min := some 2
              registered := some 10
              durations := [(1, 1), (2, 2), (3, 1)] }) := by
  constructor
  · intro s now h
    constructor <;> simp [stopLecture, h]
  · intro t
    simp only [c6Run, initialAppState, startLecture, appAttendanceStep, stopLecture,
      trackAll, upsertTracked, mkAttBody, bodyId, minObs]
    norm_num

/-- Witness for C6's general part at a concrete active state. -/
theorem stop_report_durations_witness :
    (stopLecture { initialAppState with
        is_lecture_active := true
        lecture_start_time := some 1
        tracked_bodies := [(7, ⟨1, 4⟩)] } 5).2 =
      .ok { duration := 4
            att_max := 0
            att_min := none
            registered := none
            durations := [(7, 3)] } := by
  have h := (stop_report_durations.1 { initialAppState with
    is_lecture_active := true
    lecture_start_time := some 1
    tracked_bodies := [(7, ⟨1, 4⟩)] } 5 rfl).1
  rw [h]
  norm_num [initialAppState]

/-! ## C7: the registered-count precondition at initialization -/

/-- C7: `/api/initialize` rejects a registered count exceeding the COVID
occupancy limit when that feature is enabled, and one exceeding the
lab capacity of 30 otherwise — and it never flips the lecture-active
flag, so a rejected configuration leaves the session Inactive. -/
theorem start_validation_precondition :
    (∀ (s : AppState) (d : InitData) (r : ℤ),
        d.attendance = true → d.registered_students = some r → 0 ≤ s.covid_bodies →
        ((d.covid = true → r > s.covid_bodies →
            (apiInitialize s d).2 = .error .exceedsCovidMax) ∧
          (d.covid = false → r > 30 →
            (apiInitialize s d).2 = .error .exceedsCapacity))) ∧
    (∀ (s : AppState) (d : InitData),
        (apiInitialize s d).1.is_lecture_active = s.is_lecture_active) := by
  constructor
  · intro s d r hatt hreg hcb
    constructor
    · intro hcov hr
      simp only [apiInitialize, hatt, hreg, if_true]
      rw [if_neg (by omega), if_pos (by exact ⟨hcov, hr⟩)]
    · intro hcov hr
      simp only [apiInitialize, hatt, hreg, if_true]
      rw [if_neg (by omega), if_neg (by simp [hcov]), if_pos (by simp [hcov]; omega)]
  · intro s d
    simp only [apiInitialize]
    repeat' split
    all_goals rfl

/-- Witness for C7: `start_session(13)` with the COVID limit 12 enabled
is rejected and the session stays Inactive. -/
theorem start_validation_precondition_witness :
    (apiInitialize initialAppState ⟨true, false, true, some 13⟩).2 =
        .error .exceedsCovidMax ∧
    (apiInitialize initialAppState ⟨true, false, true, some 13⟩).1.is_lecture_active =
      false :=
  ⟨(start_validation_precondition.1 initialAppState ⟨true, false, true, some 13⟩ 13
      rfl rfl (by decide)).1 rfl (by decide),
    start_validation_precondition.2 initialAppState ⟨true, false, true, some 13⟩⟩

/-! ## C10: `/api/update_features` stores registered_students unvalidated -/

/-- Counterexample to C10 as stated: a request carrying only
`registered_students` (no `phone`/`phone_detection` key) is rejected with
HTTP 400 before any state change, so the value is *not* stored. -/
theorem update_features_counterexample :
    updateFeatures initialAppState ⟨none, none, none, none, none, some (.jint 100)⟩ =
      (initialAppState, .error .phoneRequired) := rfl

/-- C10 amended: provided the request also carries a
`phone`/`phone_detection` value, `registered_students` is stored with no
ceiling validation (any integer, e.g. one exceeding the occupancy limit or
the capacity of 30, is accepted with status success), a non-numeric string
is coerced to 0, and the stored value is the one used by the attendance
classification of subsequent ticks. -/
theorem update_features_no_validation :
    (∀ (s : AppState) (n : ℤ),
        (updateFeatures s ⟨some (.jbool true), none, none, none, none,
            some (.jint n)⟩).2 = .ok () ∧
        (updateFeatures s ⟨some (.jbool true), none, none, none, none,
            some (.jint n)⟩).1.registered_students = some n) ∧
    (∀ (s : AppState) (str : String), str ≠ "" → str.toInt? = none →
        (updateFeatures s ⟨some (.jbool true), none, none, none, none,
            some (.jstr str)⟩).2 = .ok () ∧
        (updateFeatures s ⟨some (.jbool true), none, none, none, none,
            some (.jstr str)⟩).1.registered_students = some 0) ∧
    (∀ (s : AppState) (reg : ℤ) (bodies : List Body) (now : ℚ),
        s.is_lecture_active = true → s.registered_students = some reg → reg ≠ 0 →
        (appAttendanceStep s bodies now).1.attendance =
          some (classifyRatio ((bodies.length : ℚ) / (reg : ℚ)), bodies.length, reg)) := by
  refine ⟨?_, ?_, ?_⟩
  · intro s n
    by_cases h0 : n = 0 <;>
      simp [updateFeatures, coerceRegistered, JVal.truthy, pyIntOf, h0]
  · intro s str h1 h2
    simp [updateFeatures, coerceRegistered, JVal.truthy, pyIntOf, h1, h2]
  · intro s reg bodies now h1 h2 h3
    simp only [appAttendanceStep, h1, h2]
    rw [if_neg h3]

/-- Witness for the amended C10: a value far above every ceiling is
accepted and stored. -/
theorem update_features_no_validation_witness :
    (updateFeatures initialAppState ⟨some (.jbool true), none, none, none, none,
        some (.jint 100)⟩).2 = .ok () ∧
    (updateFeatures initialAppState ⟨some (.jbool true), none, none, none, none,
        some (.jint 100)⟩).1.registered_students = some 100 :=
  update_features_no_validation.1 initialAppState 100

/-! ## C3 and C8: the advisory cache -/

/-- A cache hit: within the TTL window and with a value present, the
cell is returned unchanged and the fetch outcome is irrelevant. -/
theorem getCachedData_hit {α : Type} (default : α) (t : ℚ) (f : Except PyErr α)
    (c : CacheCell α) (d : α) (h : c.data = some d)
    (hf : t - c.timestamp < CACHE_DURATION) :
    getCachedData default t f c = (d, c) := by
  rcases c with ⟨ts, dd⟩
  have h' : dd = some d := h
  subst h'
  simp only [getCachedData]
  rw [if_pos hf]

/-- C3: when the `try` body of the advisory computation raises, the
caller receives the defined fallback advisory (action abstracting to
`UNKNOWN`, neutral suggestion) rather than the exception; in particular
this covers a model inference failing on every input with both sub-fetch
caches empty; and when a sub-fetch fails while a previously cached value
exists, that previous value is returned with the cell untouched. -/
theorem advisory_failure_fallback :
    (∀ (occ : ℤ) (now : ℚ) (sf : Except PyErr SensorData)
        (wf : Except PyErr WeatherData) (mp : ModelInput → Except PyErr String)
        (sc : CacheCell SensorData) (wc : CacheCell WeatherData) (e : PyErr),
        (predictHvacTry occ now sf wf mp sc wc).1 = .error e →
        (predictHvacAction occ now sf wf mp sc wc).1 = hvacFallback) ∧
    actionLabelOf hvacFallback.action = .UNKNOWN ∧
    hvacFallback.suggestion = "Error in HVAC prediction" ∧
    (∀ (occ : ℤ) (now : ℚ) (sf : Except PyErr SensorData)
        (wf : Except PyErr WeatherData) (mp : ModelInput → Except PyErr String)
        (sc : CacheCell SensorData) (wc : CacheCell WeatherData)
        (f : ModelInput → PyErr),
        sc.data = none → wc.data = none →
        (∀ inp, mp inp = .error (f inp)) →
        (predictHvacAction occ now sf wf mp sc wc).1 = hvacFallback) ∧
    (∀ (now : ℚ) (c : CacheCell SensorData) (d : SensorData) (e : PyErr),
        c.data = some d →
        getCachedSensorData now (.error e) c = (d, c)) := by
  refine ⟨?_, rfl, rfl, ?_, ?_⟩
  · intro occ now sf wf mp sc wc e h
    rcases htry : predictHvacTry occ now sf wf mp sc wc with ⟨res, sc', wc'⟩
    rw [htry] at h
    have hres : res = .error e := h
    subst hres
    simp [predictHvacAction, htry]
  · intro occ now sf wf mp sc wc f hsc hwc hmp
    rcases sc with ⟨ts1, d1⟩
    rcases wc with ⟨ts2, d2⟩
    have h1 : d1 = none := hsc
    have h2 : d2 = none := hwc
    subst h1
    subst h2
    rcases sf with esf | vsf <;> rcases wf with ewf | vwf <;>
      simp [predictHvacAction, predictHvacTry, getCachedSensorData,
        getCachedWeatherData, getCachedData, hmp]
  · intro now c d e h
    rcases c with ⟨ts, dd⟩
    have h' : dd = some d := h
    subst h'
    simp only [getCachedSensorData, getCachedData]
    split_ifs <;> rfl

/-- Witness for C3: every collaborator failing, empty caches — the
result is the fallback advisory. -/
theorem advisory_failure_fallback_witness :
    (predictHvacAction 5 0 (.error .netError) (.error .netError)
        (fun _ => .error .netError) ⟨0, none⟩ ⟨0, none⟩).1 = hvacFallback ∧
    getCachedSensorData 7 (.error .netError) ⟨0, some defaultSensorData⟩ =
      (defaultSensorData, ⟨0, some defaultSensorData⟩) :=
  ⟨advisory_failure_fallback.2.2.2.1 5 0 (.error .netError) (.error .netError)
      (fun _ => .error .netError) ⟨0, none⟩ ⟨0, none⟩ (fun _ => .netError) rfl rfl
      (fun _ => rfl),
    advisory_failure_fallback.2.2.2.2 7 ⟨0, some defaultSensorData⟩
      defaultSensorData .netError rfl⟩

/-- C8: a `get` within the TTL window with a cached value returns the
cached value with the cell unchanged, independently of the injected fetch
outcome (hence no refresh is invoked); in particular two consecutive calls
inside one window — the first populating the cache — return identical
values and leave the cell identical. -/
theorem advisory_cache_ttl_idempotent :
    (∀ (c : CacheCell SensorData) (d : SensorData) (t : ℚ)
        (f : Except PyErr SensorData),
        c.data = some d → t - c.timestamp < CACHE_DURATION →
        getCachedSensorData t f c = (d, c)) ∧
    (∀ (c : CacheCell WeatherData) (d : WeatherData) (t : ℚ)
        (f : Except PyErr WeatherData),
        c.data = some d → t - c.timestamp < CACHE_DURATION →
        getCachedWeatherData t f c = (d, c)) ∧
    (∀ (t1 t2 ts : ℚ) (sd : SensorData) (f2 : Except PyErr SensorData),
        t2 - t1 < CACHE_DURATION →
        getCachedSensorData t1 (.ok sd) ⟨ts, none⟩ = (sd, ⟨t1, some sd⟩) ∧
        getCachedSensorData t2 f2 ⟨t1, some sd⟩ = (sd, ⟨t1, some sd⟩)) := by
  refine ⟨?_, ?_, ?_⟩
  · intro c d t f h hf
    exact getCachedData_hit defaultSensorData t f c d h hf
  · intro c d t f h hf
    exact getCachedData_hit defaultWeatherData t f c d h hf
  · intro t1 t2 ts sd f2 hwin
    exact ⟨rfl, getCachedData_hit defaultSensorData t2 f2 ⟨t1, some sd⟩ sd rfl hwin⟩

/-- Witness for C8 at concrete times: a hit at `t = 30` on a cell
refreshed at `t = 0`. -/
theorem advisory_cache_ttl_idempotent_witness :
    getCachedSensorData 30 (.error .netError) ⟨0, some defaultSensorData⟩ =
      (defaultSensorData, ⟨0, some defaultSensorData⟩) ∧
    getCachedSensorData 30 (.ok ⟨1, 1, 1, 1, 1⟩) ⟨0, some defaultSensorData⟩ =
      (defaultSensorData, ⟨0, some defaultSensorData⟩) :=
  ⟨advisory_cache_ttl_idempotent.1 ⟨0, some defaultSensorData⟩ defaultSensorData 30
      (.error .netError) rfl (by norm_num [CACHE_DURATION]),
    advisory_cache_ttl_idempotent.1 ⟨0, some defaultSensorData⟩ defaultSensorData 30
      (.ok ⟨1, 1, 1, 1, 1⟩) rfl (by norm_num [CACHE_DURATION])⟩

end DigitalTwin
